import Mathlib

/-!
Shallow embedding of the survey ETL pipeline (`src/pipeline.py`).

The pipeline fetches a semicolon-delimited CSV export, normalizes the
column names, heuristically maps columns onto a fixed relational schema,
drops and recreates the destination table, and inserts the rows one by
one with per-row fault isolation, committing once at the end.

Modelling conventions:
- a cell value is either a string, an already-coerced timestamp, or the
  missing marker (pandas NaN / NaT are both `Cell.missing`);
- the external parsers (`float(...)` and `pd.to_datetime(..., errors =
  coerce)`) are parameters `pf : String → Option Rat` and
  `pts : String → Option Nat`, where `none` models a parse failure;
- a per-row failure of `cur.execute(insert_query, ...)` raised client
  side (parameter adaptation, before any SQL reaches the server) is the
  parameter `fails : Nat → Bool` of `runPipeline`; a server-side
  statement error (constraint violation, bad literal), which aborts the
  single shared psycopg2 transaction, is the parameter `serverFails` of
  `runPipelineTxn`, whose commit-on-aborted-transaction is a rollback;
- the relational store state is an association list of tables keyed by
  (schema name, table name).
-/

/-- A single cell of the decoded table: missing (pandas NaN/NaT), raw
text, or a timestamp produced by the date coercion step. -/
inductive Cell where
  | missing : Cell
  | text : String → Cell
  | ts : Nat → Cell
deriving DecidableEq, Repr

/-- One decoded row: an association list from field name to cell value,
mirroring a pandas row viewed through `row.get`. -/
abbrev RawRow := List (String × Cell)

/-- Value of field `k` in row `r`; a label that is absent yields the
missing marker, mirroring `row.get(label)` returning None/NaN. -/
def rowGet (r : RawRow) (k : String) : Cell :=
  match r.lookup k with
  | some c => c
  | none => Cell.missing

/-- A decoded table: the ordered column-name list plus the rows. -/
structure Table where
  cols : List String
  rows : List RawRow
deriving DecidableEq, Repr

/-- Whitespace set of Python `str.strip()` restricted to ASCII. -/
def pyIsSpace (c : Char) : Bool :=
  c = ' ' || c = '\t' || c = '\n' || c = '\r' || c = '\x0b' || c = '\x0c'

/-- Python `str.strip()` on a character list: drop whitespace from both
ends. -/
def pyStrip (l : List Char) : List Char :=
  ((l.dropWhile pyIsSpace).reverse.dropWhile pyIsSpace).reverse

/-- Python `str.replace(a, rep)` for a one-character pattern `a`. -/
def replaceChar (a : Char) (rep : List Char) : List Char → List Char
  | [] => []
  | c :: cs => (if c = a then rep else [c]) ++ replaceChar a rep cs

/-- The chain of `.replace` calls of line 46 of `src/pipeline.py`, in
source order: spaces and slashes to underscore, question marks removed,
hyphens to underscore, ampersands to "and". -/
def applySubsts (l : List Char) : List Char :=
  replaceChar '&' ['a', 'n', 'd']
    (replaceChar '-' ['_']
      (replaceChar '?' []
        (replaceChar '/' ['_']
          (replaceChar ' ' ['_'] l))))

/-- Column-name normalization of line 46 of `src/pipeline.py`:
`col.strip().replace(" ", "_").replace("/", "_").replace("?", "")
.replace("-", "_").replace("&", "and")` — trim first, then substitute. -/
def normalize_col (s : String) : String :=
  ⟨applySubsts (pyStrip s.data)⟩

/-- Per-character form of the substitution table, used to state one-pass
characterizations of `applySubsts`. -/
def substCharSpec (c : Char) : List Char :=
  if c = ' ' then ['_']
  else if c = '/' then ['_']
  else if c = '?' then []
  else if c = '-' then ['_']
  else if c = '&' then ['a', 'n', 'd']
  else [c]

/-- The normalizer as the claim words it: the character substitutions
applied first and the whitespace trim applied to the result. -/
def substThenTrim (s : String) : String :=
  ⟨pyStrip ((s.data.map substCharSpec).flatten)⟩

/-- Renaming step `df.columns = [ ... for col in df.columns]`: every
column name (and hence every row key) is rewritten by `normalize_col`. -/
def normalizeTable (t : Table) : Table :=
  ⟨t.cols.map normalize_col,
   t.rows.map (fun r => r.map (fun kv => (normalize_col kv.1, kv.2)))⟩

/-- Cell-level date coercion, mirroring `pd.to_datetime(values, errors
set to coerce)`: text that parses becomes a timestamp, text that does
not parse becomes the missing marker, and nothing ever raises. -/
def coerceTsCell (pts : String → Option Nat) : Cell → Cell
  | Cell.missing => Cell.missing
  | Cell.ts t => Cell.ts t
  | Cell.text s =>
    match pts s with
    | some t => Cell.ts t
    | none => Cell.missing

/-- Apply `f` to the cells of column `k` inside one row. -/
def mapColRow (k : String) (f : Cell → Cell) (r : RawRow) : RawRow :=
  r.map (fun kv => if kv.1 = k then (kv.1, f kv.2) else kv)

/-- Apply `f` to the cells of column `k` across the whole table. -/
def mapCol (k : String) (f : Cell → Cell) (t : Table) : Table :=
  ⟨t.cols, t.rows.map (mapColRow k f)⟩

/-- Lines 49-52 of `src/pipeline.py`: coerce the `start` and the `end`
column (exact post-normalization names) to timestamps when present. -/
def coerceDates (pts : String → Option Nat) (t : Table) : Table :=
  let t1 := if "start" ∈ t.cols then mapCol "start" (coerceTsCell pts) t else t
  if "end" ∈ t1.cols then mapCol "end" (coerceTsCell pts) t1 else t1

/-- Substring test on character lists, the model of Python `in`. -/
def isSubL (needle hay : List Char) : Bool :=
  hay.tails.any (fun t => needle.isPrefixOf t)

/-- Case-insensitive containment `needle in s.lower()` for a lowercase
ASCII `needle`, as used by the column-matching comprehensions. -/
def hasSub (needle s : String) : Bool :=
  isSubL needle.data (s.data.map Char.toLower)

/-- Keyword rule of `age_col` (line 81): contains "age" and "group". -/
def agePred (c : String) : Bool := hasSub "age" c && hasSub "group" c

/-- Keyword rule of `vacc_col` (line 82): contains "vaccin". -/
def vaccPred (c : String) : Bool := hasSub "vaccin" c

/-- Keyword rule of `visit_col` (line 83): "healthcare" or "visit". -/
def visitPred (c : String) : Bool := hasSub "healthcare" c || hasSub "visit" c

/-- Keyword rule of `exercise_col` (line 84): "exercise" or "physical". -/
def exercisePred (c : String) : Bool := hasSub "exercise" c || hasSub "physical" c

/-- Keyword rule of `water_col` (line 85): "water" or "drinking". -/
def waterPred (c : String) : Bool := hasSub "water" c || hasSub "drinking" c

/-- Keyword rule of `sleep_col` (line 86): "sleep" or "hour". -/
def sleepPred (c : String) : Bool := hasSub "sleep" c || hasSub "hour" c

/-- Keyword rule of `insurance_col` (line 87): "insurance" or "coverage". -/
def insurancePred (c : String) : Bool := hasSub "insurance" c || hasSub "coverage" c

/-- Keyword rule of `gender_col` (line 88): contains "gender". -/
def genderPred (c : String) : Bool := hasSub "gender" c

/-- Binding of one logical role: the list comprehension keeps the
matching columns in column order and the loop reads element 0, so the
binding is the head of the filtered list, or unbound when empty. -/
def resolveRole (pred : String → Bool) (cols : List String) : Option String :=
  (cols.filter pred).head?

/-- Row value of a role: `row.get(role_col[0]) if role_col else None`. -/
def roleVal (pred : String → Bool) (cols : List String) (r : RawRow) : Cell :=
  match resolveRole pred cols with
  | some c => rowGet r c
  | none => Cell.missing

/-- Truncation toward zero, the behavior of Python `int(float(x))`. -/
def truncRat (q : Rat) : Int :=
  if 0 ≤ q then q.floor else q.ceil

/-- Visit-count coercion (lines 130 and 137-140): the bound column
value parsed by `int(float(...))`; unbound, missing, unparseable, or
non-text values all collapse to 0 through the bare `except`. -/
def coerceVisit (pf : String → Option Rat) (cols : List String) (r : RawRow) : Int :=
  match resolveRole visitPred cols with
  | none => 0
  | some c =>
    match rowGet r c with
    | Cell.missing => 0
    | Cell.ts _ => 0
    | Cell.text s =>
      match pf s with
      | none => 0
      | some q => truncRat q

/-- Sleep-hours coercion (lines 133 and 142-145): `float(...)` with the
bare `except` collapsing every failure to 0. -/
def coerceSleep (pf : String → Option Rat) (cols : List String) (r : RawRow) : Rat :=
  match resolveRole sleepPred cols with
  | none => 0
  | some c =>
    match rowGet r c with
    | Cell.missing => 0
    | Cell.ts _ => 0
    | Cell.text s =>
      match pf s with
      | none => 0
      | some q => q

/-- Adapted SQL parameter of a string role (lines 127-134 and 147-158):
an unbound role passes Python None, a genuine SQL NULL; a bound text
cell passes the string; a bound missing cell is the pandas float NaN,
which psycopg2 renders as a quoted NaN float literal that PostgreSQL
stores into the VARCHAR column as the text "NaN" by assignment cast —
never as NULL, because the code performs no NaN-to-None conversion; a
bound timestamp cell stores its text form, unreachable under the fixed
keyword rules. -/
def strParam (pred : String → Bool) (cols : List String) (r : RawRow) : Option String :=
  match resolveRole pred cols with
  | none => none
  | some c =>
    match rowGet r c with
    | Cell.text s => some s
    | Cell.missing => some "NaN"
    | Cell.ts t => some (toString t)

/-- Timestamp parameter of the two submission columns: `none` is the
Python None that `row.get` returns when the column is absent, a genuine
SQL NULL. A present but missing cell is pandas NaT, which psycopg2
renders as a quoted NaT literal that the server rejects — that row then
fails server side, which the transactional model `runPipelineTxn`
captures through its failure predicate, so the `none` returned here for
a NaT cell never reaches a committed row on that path. -/
def cellTs : Cell → Option Nat
  | Cell.ts t => some t
  | _ => none

/-- The typed tuple passed to `cur.execute(insert_query, ...)` for one
row (lines 127-158 of `src/pipeline.py`). -/
structure TargetRow where
  submission_start : Option Nat
  submission_end : Option Nat
  age_group : Option String
  gender : Option String
  vaccination_status : Option String
  healthcare_visits_count : Int
  exercise_frequency : Option String
  water_source : Option String
  sleep_hours : Rat
  health_insurance : Option String
deriving DecidableEq, Repr

/-- Construction of the insert tuple for one row: `start`/`end` are read
by exact name, the eight heuristic roles through the resolved columns. -/
def buildRow (pf : String → Option Rat) (cols : List String) (r : RawRow) : TargetRow :=
  { submission_start := cellTs (rowGet r "start")
    submission_end := cellTs (rowGet r "end")
    age_group := strParam agePred cols r
    gender := strParam genderPred cols r
    vaccination_status := strParam vaccPred cols r
    healthcare_visits_count := coerceVisit pf cols r
    exercise_frequency := strParam exercisePred cols r
    water_source := strParam waterPred cols r
    sleep_hours := coerceSleep pf cols r
    health_insurance := strParam insurancePred cols r }

/-- Destination schema name (line 25 of `src/pipeline.py`). -/
def schema_name : String := "Ribka-Blossom-academy-capstone-project"

/-- Destination table name (line 26 of `src/pipeline.py`). -/
def table_name : String := "public_health_data"

/-- Identity of the destination table. -/
def tblKey : String × String := (schema_name, table_name)

/-- State of the relational store: existing schemas and the tables with
their committed rows. -/
structure DB where
  schemas : List String
  tables : List ((String × String) × List TargetRow)
deriving DecidableEq, Repr

/-- `CREATE SCHEMA IF NOT EXISTS` (line 74). -/
def ensureSchema (s : String) (db : DB) : DB :=
  if s ∈ db.schemas then db else { db with schemas := db.schemas ++ [s] }

/-- `DROP TABLE IF EXISTS` (line 78): remove every table of that
identity. -/
def dropTable (k : String × String) (db : DB) : DB :=
  { db with tables := db.tables.filter (fun e => !decide (e.1 = k)) }

/-- `CREATE TABLE` (lines 91-106): a fresh empty table of the given
identity. -/
def createTable (k : String × String) (db : DB) : DB :=
  { db with tables := db.tables ++ [(k, [])] }

/-- One successful `INSERT` into table `k`: the row is appended. -/
def insertRow (k : String × String) (tr : TargetRow) (db : DB) : DB :=
  { db with tables := db.tables.map (fun e => if e.1 = k then (e.1, e.2 ++ [tr]) else e) }

/-- Committed rows of table `k`, the model of `SELECT COUNT(*)`-style
verification reads. -/
def lookupTable (db : DB) (k : String × String) : Option (List TargetRow) :=
  match db.tables.find? (fun e => decide (e.1 = k)) with
  | some e => some e.2
  | none => none

/-- Running counters of the insert loop (lines 119-168): rows inserted,
rows failed, error messages printed (only the first three are printed),
and the successfully inserted tuples in order. -/
structure LoadState where
  inserted : Nat
  errors : Nat
  printed : Nat
  rows : List TargetRow
deriving DecidableEq, Repr

/-- One iteration of the insert loop at row index `idx` when failures
are client side — raised by psycopg2 while adapting parameters, before
any SQL reaches the server, so the shared transaction stays healthy:
either the insert raises (counted as an error, message printed while
the error count is at most three) or the tuple is built and inserted.
A server-side statement error instead aborts the whole transaction;
see `loadStepTxn`. -/
def loadStep (fails : Nat → Bool) (pf : String → Option Rat) (cols : List String)
    (idx : Nat) (r : RawRow) (st : LoadState) : LoadState :=
  if fails idx then
    { st with
      errors := st.errors + 1
      printed := if st.errors + 1 ≤ 3 then st.printed + 1 else st.printed }
  else
    { st with
      inserted := st.inserted + 1
      rows := st.rows ++ [buildRow pf cols r] }

/-- The insert loop from row index `idx` onwards. -/
def loadRowsFrom (fails : Nat → Bool) (pf : String → Option Rat) (cols : List String) :
    Nat → List RawRow → LoadState → LoadState
  | _, [], st => st
  | idx, r :: rest, st =>
    loadRowsFrom fails pf cols (idx + 1) rest (loadStep fails pf cols idx r st)

/-- The whole insert loop `for idx, row in df.iterrows()` starting from
fresh counters. -/
def loadRows (fails : Nat → Bool) (pf : String → Option Rat) (cols : List String)
    (rows : List RawRow) : LoadState :=
  loadRowsFrom fails pf cols 0 rows ⟨0, 0, 0, []⟩

/-- Observable outcome of one pipeline run: the committed store, the
loop counters, whether the fetch diagnostic was printed, whether the
run reached the final success banner, how many rows were attempted, and
how many commits were issued. -/
structure RunResult where
  db : DB
  recordsInserted : Nat
  errorsCount : Nat
  printedErrors : Nat
  fatalDiagnostic : Bool
  success : Bool
  rowsAttempted : Nat
  commits : Nat
deriving DecidableEq, Repr

/-- The whole run of `src/pipeline.py` over an already-decoded table:
on HTTP 200 and a working connection it normalizes columns, coerces the
date columns, prepares the destination table (schema / drop / create),
runs the fault-isolated insert loop, and commits once; on a connection
failure it stops with no commit; on any non-200 status it only prints
the credential/URL/network diagnostic and touches nothing. The per-row
failures of this model are client side and leave the transaction
healthy, so the single commit at the end is effective; the server-side
error path of the real single psycopg2 transaction is modelled by
`runPipelineTxn` below. -/
def runPipeline (status : Nat) (raw : Table) (pts : String → Option Nat)
    (pf : String → Option Rat) (connectOk : Bool) (fails : Nat → Bool) (db : DB) : RunResult :=
  if status = 200 then
    let t := coerceDates pts (normalizeTable raw)
    if connectOk then
      let d1 := createTable tblKey (dropTable tblKey (ensureSchema schema_name db))
      let st := loadRows fails pf t.cols t.rows
      let d2 := st.rows.foldl (fun d r => insertRow tblKey r d) d1
      ⟨d2, st.inserted, st.errors, st.printed, false, true, t.rows.length, 1⟩
    else
      ⟨db, 0, 0, 0, false, false, 0, 0⟩
  else
    ⟨db, 0, 0, 0, true, false, 0, 0⟩

/-- Loop state under the real single-transaction discipline: the same
counters plus the aborted flag of the shared psycopg2 transaction. -/
structure TxnState where
  inserted : Nat
  errors : Nat
  printed : Nat
  rows : List TargetRow
  aborted : Bool
deriving DecidableEq, Repr

/-- One loop iteration when failures are server side (constraint
violation, numeric overflow, bad literal): the first such error aborts
the shared transaction, and from then on every `cur.execute` raises
InFailedSqlTransaction, which the per-row except also catches and
counts — the loop keeps running but nothing more is executed. -/
def loadStepTxn (serverFails : Nat → Bool) (pf : String → Option Rat) (cols : List String)
    (idx : Nat) (r : RawRow) (st : TxnState) : TxnState :=
  if st.aborted then
    { st with
      errors := st.errors + 1
      printed := if st.errors + 1 ≤ 3 then st.printed + 1 else st.printed }
  else if serverFails idx then
    { st with
      errors := st.errors + 1
      printed := if st.errors + 1 ≤ 3 then st.printed + 1 else st.printed
      aborted := true }
  else
    { st with
      inserted := st.inserted + 1
      rows := st.rows ++ [buildRow pf cols r] }

/-- The transactional insert loop from row index `idx` onwards. -/
def loadRowsTxnFrom (serverFails : Nat → Bool) (pf : String → Option Rat) (cols : List String) :
    Nat → List RawRow → TxnState → TxnState
  | _, [], st => st
  | idx, r :: rest, st =>
    loadRowsTxnFrom serverFails pf cols (idx + 1) rest (loadStepTxn serverFails pf cols idx r st)

/-- The whole transactional insert loop from fresh counters. -/
def loadRowsTxn (serverFails : Nat → Bool) (pf : String → Option Rat) (cols : List String)
    (rows : List RawRow) : TxnState :=
  loadRowsTxnFrom serverFails pf cols 0 rows ⟨0, 0, 0, [], false⟩

/-- The run under the real psycopg2/PostgreSQL semantics: autocommit is
off and there are no savepoints, so CREATE SCHEMA, DROP TABLE, CREATE
TABLE and every INSERT share one transaction committed once at line
171. When no server-side statement error occurs this coincides with
`runPipeline`. When one occurs, the transaction is aborted: every later
execute fails, and the final COMMIT is turned into ROLLBACK by the
server (commit itself does not raise), discarding the inserted rows
and even the drop/create, so the store keeps its initial state and
`commits` (effective, durable commits) is 0; the verification SELECT
then only succeeds when a table of that identity already existed before
the run, otherwise it raises and the script never reaches its success
banner. -/
def runPipelineTxn (status : Nat) (raw : Table) (pts : String → Option Nat)
    (pf : String → Option Rat) (connectOk : Bool) (serverFails : Nat → Bool) (db : DB) : RunResult :=
  if status = 200 then
    let t := coerceDates pts (normalizeTable raw)
    if connectOk then
      let st := loadRowsTxn serverFails pf t.cols t.rows
      if st.aborted then
        match lookupTable db tblKey with
        | some _ => ⟨db, st.inserted, st.errors, st.printed, false, true, t.rows.length, 0⟩
        | none => ⟨db, st.inserted, st.errors, st.printed, false, false, t.rows.length, 0⟩
      else
        let d1 := createTable tblKey (dropTable tblKey (ensureSchema schema_name db))
        let d2 := st.rows.foldl (fun d r => insertRow tblKey r d) d1
        ⟨d2, st.inserted, st.errors, st.printed, false, true, t.rows.length, 1⟩
    else
      ⟨db, 0, 0, 0, false, false, 0, 0⟩
  else
    ⟨db, 0, 0, 0, true, false, 0, 0⟩

/-! ### Lemmas about the column-name normalizer -/

theorem replaceChar_append (a : Char) (rep l1 l2 : List Char) :
    replaceChar a rep (l1 ++ l2) = replaceChar a rep l1 ++ replaceChar a rep l2 := by
  induction l1 with
  | nil => rfl
  | cons c cs ih => simp [replaceChar, ih]

theorem applySubsts_nil : applySubsts [] = [] := rfl

theorem applySubsts_cons (c : Char) (l : List Char) :
    applySubsts (c :: l) = substCharSpec c ++ applySubsts l := by
  show replaceChar '&' ['a', 'n', 'd']
      (replaceChar '-' ['_']
        (replaceChar '?' []
          (replaceChar '/' ['_']
            ((if c = ' ' then ['_'] else [c]) ++ replaceChar ' ' ['_'] l)))) = _
  rw [replaceChar_append, replaceChar_append, replaceChar_append, replaceChar_append]
  show _ ++ applySubsts l = substCharSpec c ++ applySubsts l
  congr 1
  by_cases h1 : c = ' '
  · simp [h1, replaceChar, substCharSpec]
  by_cases h2 : c = '/'
  · simp [h2, replaceChar, substCharSpec]
  by_cases h3 : c = '?'
  · simp [h3, replaceChar, substCharSpec]
  by_cases h4 : c = '-'
  · simp [h4, replaceChar, substCharSpec]
  by_cases h5 : c = '&'
  · simp [h5, replaceChar, substCharSpec]
  · simp [replaceChar, substCharSpec, h1, h2, h3, h4, h5]

theorem applySubsts_eq_flatten (l : List Char) :
    applySubsts l = (l.map substCharSpec).flatten := by
  induction l with
  | nil => rfl
  | cons c cs ih => rw [applySubsts_cons, ih]; simp

theorem normalize_col_eq (s : String) :
    normalize_col s = ⟨((pyStrip s.data).map substCharSpec).flatten⟩ := by
  unfold normalize_col
  rw [applySubsts_eq_flatten]

theorem mem_of_mem_dropWhile {p : Char → Bool} {l : List Char} {c : Char}
    (h : c ∈ l.dropWhile p) : c ∈ l := by
  induction l with
  | nil => simp [List.dropWhile] at h
  | cons d t ih =>
    rw [List.dropWhile] at h
    by_cases hd : p d
    · simp only [hd] at h
      exact List.mem_cons_of_mem d (ih h)
    · simp only [hd] at h
      simpa using h

theorem mem_of_mem_pyStrip {l : List Char} {c : Char} (h : c ∈ pyStrip l) : c ∈ l := by
  unfold pyStrip at h
  rw [List.mem_reverse] at h
  have h2 := mem_of_mem_dropWhile h
  rw [List.mem_reverse] at h2
  exact mem_of_mem_dropWhile h2

theorem dropWhile_eq_self_of_no (p : Char → Bool) (l : List Char)
    (h : ∀ c ∈ l, p c = false) : l.dropWhile p = l := by
  cases l with
  | nil => rfl
  | cons c t => rw [List.dropWhile]; simp [h c (List.mem_cons_self c t)]

theorem pyStrip_eq_self_of_no_ws (l : List Char) (h : ∀ c ∈ l, pyIsSpace c = false) :
    pyStrip l = l := by
  unfold pyStrip
  rw [dropWhile_eq_self_of_no _ _ h,
    dropWhile_eq_self_of_no _ _ (fun c hc => h c (List.mem_reverse.mp hc)),
    List.reverse_reverse]

theorem flatten_map_singleton (l : List Char) :
    (l.map (fun c => [c])).flatten = l := by
  induction l with
  | nil => rfl
  | cons c t ih => simp [ih]

/-! ### Lemmas about the relational-store model -/

theorem lookupTable_dropTable (db : DB) (k : String × String) :
    lookupTable (dropTable k db) k = none := by
  unfold lookupTable dropTable
  simp only
  have : (db.tables.filter (fun e => !decide (e.1 = k))).find?
      (fun e => decide (e.1 = k)) = none := by
    induction db.tables with
    | nil => rfl
    | cons e t ih =>
      by_cases h : e.1 = k
      · simpa [List.filter, h] using ih
      · simpa [List.filter, List.find?, h] using ih
  rw [this]

theorem find?_append_none {α : Type} (p : α → Bool) (l1 l2 : List α)
    (h : l1.find? p = none) : (l1 ++ l2).find? p = l2.find? p := by
  induction l1 with
  | nil => rfl
  | cons e t ih =>
    by_cases he : p e
    · simp [List.find?, he] at h
    · simp only [List.find?, he] at h
      simpa [List.find?, he] using ih h

theorem lookupTable_prep (db : DB) (k : String × String) :
    lookupTable (createTable k (dropTable k db)) k = some [] := by
  have hdrop := lookupTable_dropTable db k
  unfold lookupTable at hdrop ⊢
  unfold createTable
  simp only
  cases hfind : ((dropTable k db).tables.find? (fun e => decide (e.1 = k))) with
  | some e => rw [hfind] at hdrop; simp at hdrop
  | none =>
    rw [find?_append_none _ _ _ hfind]
    simp [List.find?]

theorem lookupTable_insertRow (db : DB) (k : String × String) (tr : TargetRow) :
    lookupTable (insertRow k tr db) k
      = (lookupTable db k).map (fun rs => rs ++ [tr]) := by
  unfold lookupTable insertRow
  simp only
  induction db.tables with
  | nil => rfl
  | cons e t ih =>
    by_cases h : e.1 = k
    · simp [List.find?, h]
    · simpa [List.find?, h] using ih

theorem lookupTable_foldl_insert (rows : List TargetRow) (db : DB) (k : String × String) :
    lookupTable (rows.foldl (fun d r => insertRow k r d) db) k
      = (lookupTable db k).map (fun rs => rs ++ rows) := by
  induction rows generalizing db with
  | nil => cases h : lookupTable db k <;> simp [h]
  | cons r rest ih =>
    rw [List.foldl_cons, ih, lookupTable_insertRow]
    cases h : lookupTable db k <;> simp [h]

theorem schemas_insertRow (db : DB) (k : String × String) (tr : TargetRow) :
    (insertRow k tr db).schemas = db.schemas := rfl

theorem schemas_foldl_insert (rows : List TargetRow) (db : DB) (k : String × String) :
    (rows.foldl (fun d r => insertRow k r d) db).schemas = db.schemas := by
  induction rows generalizing db with
  | nil => rfl
  | cons r rest ih => rw [List.foldl_cons, ih, schemas_insertRow]

theorem mem_schemas_ensureSchema (s : String) (db : DB) :
    s ∈ (ensureSchema s db).schemas := by
  unfold ensureSchema
  by_cases h : s ∈ db.schemas
  · simpa [h] using h
  · simp [h]

/-! ### Lemmas about a successful (HTTP 200, connected) run -/

theorem run200_eq (raw : Table) (pts : String → Option Nat) (pf : String → Option Rat)
    (fails : Nat → Bool) (db : DB) :
    runPipeline 200 raw pts pf true fails db
      = ⟨(loadRows fails pf (coerceDates pts (normalizeTable raw)).cols
            (coerceDates pts (normalizeTable raw)).rows).rows.foldl
              (fun d r => insertRow tblKey r d)
              (createTable tblKey (dropTable tblKey (ensureSchema schema_name db))),
         (loadRows fails pf (coerceDates pts (normalizeTable raw)).cols
            (coerceDates pts (normalizeTable raw)).rows).inserted,
         (loadRows fails pf (coerceDates pts (normalizeTable raw)).cols
            (coerceDates pts (normalizeTable raw)).rows).errors,
         (loadRows fails pf (coerceDates pts (normalizeTable raw)).cols
            (coerceDates pts (normalizeTable raw)).rows).printed,
         false, true, (coerceDates pts (normalizeTable raw)).rows.length, 1⟩ := by
  rfl

theorem lookupTable_run200 (raw : Table) (pts : String → Option Nat)
    (pf : String → Option Rat) (fails : Nat → Bool) (db : DB) :
    lookupTable (runPipeline 200 raw pts pf true fails db).db tblKey
      = some ((loadRows fails pf (coerceDates pts (normalizeTable raw)).cols
                (coerceDates pts (normalizeTable raw)).rows).rows) := by
  rw [run200_eq]
  simp only
  rw [lookupTable_foldl_insert, lookupTable_prep]
  simp

theorem schemas_run200 (raw : Table) (pts : String → Option Nat)
    (pf : String → Option Rat) (fails : Nat → Bool) (db : DB) :
    schema_name ∈ (runPipeline 200 raw pts pf true fails db).db.schemas := by
  rw [run200_eq]
  simp only
  rw [schemas_foldl_insert]
  have h := mem_schemas_ensureSchema schema_name db
  unfold createTable dropTable
  simpa using h

/-! ### Lemmas about role resolution and row access -/

theorem resolveRole_first (pred : String → Bool) (pre : List String) (c : String)
    (post : List String) (hc : pred c = true) (hpre : ∀ x ∈ pre, pred x = false) :
    resolveRole pred (pre ++ c :: post) = some c := by
  unfold resolveRole
  rw [List.filter_append, List.filter_cons_of_pos hc,
    List.filter_eq_nil_iff.mpr (fun x hx => by simp [hpre x hx])]
  rfl

theorem resolveRole_none (pred : String → Bool) (cols : List String)
    (h : ∀ x ∈ cols, pred x = false) : resolveRole pred cols = none := by
  unfold resolveRole
  rw [List.filter_eq_nil_iff.mpr (fun x hx => by simp [h x hx])]
  rfl

theorem roleVal_missing_of_none (pred : String → Bool) (cols : List String) (r : RawRow)
    (h : resolveRole pred cols = none) : roleVal pred cols r = Cell.missing := by
  unfold roleVal
  rw [h]

theorem lookup_none_of_keys {r : RawRow} {k : String} (h : ∀ kv ∈ r, kv.1 ≠ k) :
    r.lookup k = none := by
  induction r with
  | nil => rfl
  | cons kv t ih =>
    have hk : (k == kv.1) = false :=
      beq_eq_false_iff_ne.mpr (Ne.symm (h kv (List.mem_cons_self kv t)))
    simp only [List.lookup, hk]
    exact ih (fun kv2 h2 => h kv2 (List.mem_cons_of_mem _ h2))

theorem rowGet_missing_of_keys {r : RawRow} {k : String} (h : ∀ kv ∈ r, kv.1 ≠ k) :
    rowGet r k = Cell.missing := by
  unfold rowGet
  rw [lookup_none_of_keys h]

/-! ### Lemmas for idempotence of the normalizer -/

theorem substCharSpec_props (c : Char) (hc : pyIsSpace c = true → c = ' ') :
    ∀ d ∈ substCharSpec c, pyIsSpace d = false ∧ substCharSpec d = [d] := by
  intro d hd
  by_cases h1 : c = ' '
  · subst h1; simp [substCharSpec] at hd; subst hd; exact ⟨by decide, by decide⟩
  by_cases h2 : c = '/'
  · subst h2; simp [substCharSpec] at hd; subst hd; exact ⟨by decide, by decide⟩
  by_cases h3 : c = '?'
  · subst h3; simp [substCharSpec] at hd
  by_cases h4 : c = '-'
  · subst h4; simp [substCharSpec] at hd; subst hd; exact ⟨by decide, by decide⟩
  by_cases h5 : c = '&'
  · subst h5; simp [substCharSpec] at hd
    rcases hd with hd | hd | hd <;> subst hd <;> exact ⟨by decide, by decide⟩
  · simp [substCharSpec, h1, h2, h3, h4, h5] at hd
    rw [hd]
    refine ⟨?_, by simp [substCharSpec, h1, h2, h3, h4, h5]⟩
    rcases Bool.eq_false_or_eq_true (pyIsSpace c) with hb | hb
    · exact absurd (hc hb) h1
    · exact hb

theorem normalize_col_chars (s : String) (h : ∀ c ∈ s.data, pyIsSpace c = true → c = ' ') :
    ∀ d ∈ (normalize_col s).data, pyIsSpace d = false ∧ substCharSpec d = [d] := by
  rw [normalize_col_eq]
  intro d hd
  rw [show (String.mk (((pyStrip s.data).map substCharSpec).flatten)).data
      = ((pyStrip s.data).map substCharSpec).flatten from rfl] at hd
  rw [List.mem_flatten] at hd
  obtain ⟨ls, hls, hdls⟩ := hd
  rw [List.mem_map] at hls
  obtain ⟨c, hcmem, rfl⟩ := hls
  exact substCharSpec_props c (h c (mem_of_mem_pyStrip hcmem)) d hdls

/-! ### Concrete stand-ins used by the witness theorems -/

/-- A float parser on which every string fails, modelling `float(...)`
raising ValueError on non-numeric text. -/
def noFloat : String → Option Rat := fun _ => none

/-- A timestamp parser on which every string fails, modelling
`pd.to_datetime` coercing every value to NaT. -/
def noTs : String → Option Nat := fun _ => none

/-- A float parser accepting exactly "7.9". -/
def someFloat : String → Option Rat :=
  fun s => if s = "7.9" then some ((79 : Rat) / 10) else none

/-- A three-row decoded table with one age-group column, used to run the
whole pipeline on concrete data. -/
def c1raw : Table :=
  ⟨["Age Group?"],
   [[("Age Group?", Cell.text "18-25")],
    [("Age Group?", Cell.text "26-40")],
    [("Age Group?", Cell.text "41-60")]]⟩

/-- The normalized rows of `c1raw` before the failing row. -/
def c1pre : List RawRow := [[("Age_Group", Cell.text "18-25")]]

/-- The normalized row of `c1raw` whose insert raises. -/
def c1bad : RawRow := [("Age_Group", Cell.text "26-40")]

/-- The normalized rows of `c1raw` after the failing row. -/
def c1post : List RawRow := [[("Age_Group", Cell.text "41-60")]]

/-! ### Claim theorems -/

/-- C2: for every ordered list of canonical field names and every role
predicate, when the list splits as `pre ++ c :: post` with `c` matching
and nothing in `pre` matching, the binding is `c` (the first match in
column order, later matches ignored); and with zero matches the role is
unbound and the row value read through it is the missing marker. -/
theorem c2_first_match_tiebreak (cols : List String) (pred : String → Bool) (r : RawRow) :
    (∀ pre c post, cols = pre ++ c :: post → pred c = true →
        (∀ x ∈ pre, pred x = false) → resolveRole pred cols = some c)
    ∧ ((∀ x ∈ cols, pred x = false) →
        resolveRole pred cols = none ∧ roleVal pred cols r = Cell.missing) := by
  refine ⟨?_, fun h => ?_⟩
  · intro pre c post hcols hc hpre
    rw [hcols]
    exact resolveRole_first pred pre c post hc hpre
  · have hn := resolveRole_none pred cols h
    exact ⟨hn, roleVal_missing_of_none pred cols r hn⟩

/-- C2 witness: "age_group_old" precedes "age_group_new" and wins the
tie; a table with no age column leaves the role unbound and absent. -/
theorem c2_first_match_tiebreak_w :
    resolveRole agePred ["age_group_old", "age_group_new"] = some "age_group_old"
    ∧ resolveRole agePred ["height"] = none
    ∧ roleVal agePred ["height"] [("height", Cell.text "1.7")] = Cell.missing :=
  ⟨(c2_first_match_tiebreak ["age_group_old", "age_group_new"] agePred []).1
      [] "age_group_old" ["age_group_new"] rfl (by decide) (by simp),
   ((c2_first_match_tiebreak ["height"] agePred [("height", Cell.text "1.7")]).2 (by decide)).1,
   ((c2_first_match_tiebreak ["height"] agePred [("height", Cell.text "1.7")]).2 (by decide)).2⟩

/-- C3 counterexample: the claim orders the steps as substitutions first
and trimming last, but on the raw name " x" that order yields "_x" while
the code (which trims first, line 46) yields "x". -/
theorem c3_substitute_then_trim_cex : substThenTrim " x" ≠ normalize_col " x" := by decide

/-- C3 amended: the canonical name is obtained by whitespace-trimming
the raw name FIRST and then applying the fixed character substitutions
(space and slash and hyphen to underscore, question mark removed,
ampersand to "and"), here proved in one-pass per-character form; the
function is total and deterministic because it is a Lean function. -/
theorem c3_trim_then_substitute (s : String) :
    normalize_col s = ⟨((pyStrip s.data).map substCharSpec).flatten⟩ :=
  normalize_col_eq s

/-- C4: evaluation of the code at the failing input. A decoded row
whose bound Age Group cell is empty is pandas float NaN; the code
passes it straight to `cur.execute`, psycopg2 renders a quoted NaN
float literal, and PostgreSQL stores the text "NaN" into the VARCHAR
column by assignment cast — not SQL NULL, so the tuple value is
`some "NaN"` and in particular not `none`. Only the unbound half of the
claim holds: with no matching column the code passes Python None and
the tuple value is `none`. -/
theorem c4_nan_not_null :
    (buildRow noFloat ["Age_Group"] [("Age_Group", Cell.missing)]).age_group = some "NaN"
    ∧ (buildRow noFloat ["Age_Group"] [("Age_Group", Cell.missing)]).age_group ≠ none
    ∧ (buildRow noFloat ["height"] [("height", Cell.text "1.7")]).age_group = none := by
  refine ⟨by decide, by decide, by decide⟩

/-- C5: the visit-count value parses through `int(float(...))` and
truncates toward zero on success, while a parse failure or a missing
value defaults to 0 instead of failing the row; sleep-hours likewise
parses as a decimal and defaults to 0 on failure. The parse failure is
absorbed by the inner try/except, so it never surfaces as a row error. -/
theorem c5_numeric_defaults (pf : String → Option Rat) (cols : List String) (r : RawRow) :
    (∀ c s, resolveRole visitPred cols = some c → rowGet r c = Cell.text s → pf s = none →
        (buildRow pf cols r).healthcare_visits_count = 0)
    ∧ (∀ c, resolveRole visitPred cols = some c → rowGet r c = Cell.missing →
        (buildRow pf cols r).healthcare_visits_count = 0)
    ∧ ((∀ x ∈ cols, visitPred x = false) → (buildRow pf cols r).healthcare_visits_count = 0)
    ∧ (∀ c s q, resolveRole visitPred cols = some c → rowGet r c = Cell.text s → pf s = some q →
        (buildRow pf cols r).healthcare_visits_count = truncRat q)
    ∧ (∀ c s, resolveRole sleepPred cols = some c → rowGet r c = Cell.text s → pf s = none →
        (buildRow pf cols r).sleep_hours = 0)
    ∧ (∀ c, resolveRole sleepPred cols = some c → rowGet r c = Cell.missing →
        (buildRow pf cols r).sleep_hours = 0) := by
  refine ⟨fun c s hres hget hpf => ?_, fun c hres hget => ?_, fun h => ?_,
    fun c s q hres hget hpf => ?_, fun c s hres hget hpf => ?_, fun c hres hget => ?_⟩
  · show coerceVisit pf cols r = 0
    simp [coerceVisit, hres, hget, hpf]
  · show coerceVisit pf cols r = 0
    simp [coerceVisit, hres, hget]
  · show coerceVisit pf cols r = 0
    simp [coerceVisit, resolveRole_none visitPred cols h]
  · show coerceVisit pf cols r = truncRat q
    simp [coerceVisit, hres, hget, hpf]
  · show coerceSleep pf cols r = 0
    simp [coerceSleep, hres, hget, hpf]
  · show coerceSleep pf cols r = 0
    simp [coerceSleep, hres, hget]

/-- C5 witness: a "N/A" visit count and an "abc" sleep value load as 0
and 0, and a parsable "7.9" visit count truncates to an integer. -/
theorem c5_numeric_defaults_w :
    (buildRow noFloat ["healthcare_visits", "sleep_hours"]
        [("healthcare_visits", Cell.text "N/A"), ("sleep_hours", Cell.text "abc")]).healthcare_visits_count = 0
    ∧ (buildRow noFloat ["healthcare_visits", "sleep_hours"]
        [("healthcare_visits", Cell.text "N/A"), ("sleep_hours", Cell.text "abc")]).sleep_hours = 0
    ∧ (buildRow someFloat ["healthcare_visits", "sleep_hours"]
        [("healthcare_visits", Cell.text "7.9"), ("sleep_hours", Cell.text "8")]).healthcare_visits_count
        = truncRat ((79 : Rat) / 10) :=
  ⟨(c5_numeric_defaults noFloat ["healthcare_visits", "sleep_hours"]
      [("healthcare_visits", Cell.text "N/A"), ("sleep_hours", Cell.text "abc")]).1
      "healthcare_visits" "N/A" (by decide) (by decide) rfl,
   (c5_numeric_defaults noFloat ["healthcare_visits", "sleep_hours"]
      [("healthcare_visits", Cell.text "N/A"), ("sleep_hours", Cell.text "abc")]).2.2.2.2.1
      "sleep_hours" "abc" (by decide) (by decide) rfl,
   (c5_numeric_defaults someFloat ["healthcare_visits", "sleep_hours"]
      [("healthcare_visits", Cell.text "7.9"), ("sleep_hours", Cell.text "8")]).2.2.2.1
      "healthcare_visits" "7.9" ((79 : Rat) / 10) (by decide) (by decide) rfl⟩

/-- C6: any non-200 retrieval status makes the whole run fail up front:
the store is untouched (no drop, create, or insert — the final store is
the initial one), zero rows are attempted, the credential/URL/network
diagnostic is printed, no commit is issued, and the run is not a
success. No retry exists: `runPipeline` evaluates the fetch once. -/
theorem c6_non200_fatal (status : Nat) (raw : Table) (pts : String → Option Nat)
    (pf : String → Option Rat) (connectOk : Bool) (fails : Nat → Bool) (db : DB)
    (h : status ≠ 200) :
    runPipeline status raw pts pf connectOk fails db = ⟨db, 0, 0, 0, true, false, 0, 0⟩ := by
  unfold runPipeline
  rw [if_neg h]

/-- C6 witness: an HTTP 403 run on concrete data leaves the empty store
empty, attempts nothing, prints the diagnostic, and does not succeed. -/
theorem c6_non200_fatal_w :
    runPipeline 403 c1raw noTs noFloat true (fun _ => false) ⟨[], []⟩
      = ⟨⟨[], []⟩, 0, 0, 0, true, false, 0, 0⟩ :=
  c6_non200_fatal 403 c1raw noTs noFloat true (fun _ => false) ⟨[], []⟩ (by decide)

/-- C7: after a second HTTP-200 run on any store left by any first run,
the destination table holds exactly the rows the second run loader
inserted — an expression in the second run inputs only, so nothing
accumulates from the first run — and the namespace exists. -/
theorem c7_full_replace (raw1 raw2 : Table) (pts1 pts2 : String → Option Nat)
    (pf1 pf2 : String → Option Rat) (st1 : Nat) (ck1 : Bool)
    (fails1 fails2 : Nat → Bool) (db : DB) :
    lookupTable (runPipeline 200 raw2 pts2 pf2 true fails2
        (runPipeline st1 raw1 pts1 pf1 ck1 fails1 db).db).db tblKey
      = some ((loadRows fails2 pf2 (coerceDates pts2 (normalizeTable raw2)).cols
            (coerceDates pts2 (normalizeTable raw2)).rows).rows)
    ∧ schema_name ∈ (runPipeline 200 raw2 pts2 pf2 true fails2
        (runPipeline st1 raw1 pts1 pf1 ck1 fails1 db).db).db.schemas :=
  ⟨lookupTable_run200 raw2 pts2 pf2 fails2 _, schemas_run200 raw2 pts2 pf2 fails2 _⟩

/-- C8: with both reserved columns present, the coercion touches exactly
the columns named `start` and `end` (case-sensitive), rewriting each of
their cells through `coerceTsCell`; an unparseable text cell becomes the
missing marker, a parseable one the typed timestamp, and any cell under
a different key (for example `Start`) passes through unchanged. The
coercion is a total function, so it never aborts the run. -/
theorem c8_date_coercion_lenient (pts : String → Option Nat) (t : Table)
    (hs : "start" ∈ t.cols) (he : "end" ∈ t.cols) :
    (coerceDates pts t).cols = t.cols
    ∧ (coerceDates pts t).rows
        = t.rows.map (fun r => mapColRow "end" (coerceTsCell pts) (mapColRow "start" (coerceTsCell pts) r))
    ∧ (∀ s, pts s = none → coerceTsCell pts (Cell.text s) = Cell.missing)
    ∧ (∀ s u, pts s = some u → coerceTsCell pts (Cell.text s) = Cell.ts u)
    ∧ (∀ (k : String) (f : Cell → Cell) (r : RawRow) (kv : String × Cell),
        kv ∈ r → kv.1 ≠ k → kv ∈ mapColRow k f r) := by
  refine ⟨?_, ?_, fun s hp => by simp [coerceTsCell, hp], fun s u hp => by simp [coerceTsCell, hp], ?_⟩
  · simp [coerceDates, mapCol, hs, he]
  · simp [coerceDates, mapCol, hs, he, List.map_map]
  · intro k f r kv hkv hne
    unfold mapColRow
    exact List.mem_map.mpr ⟨kv, hkv, by simp [hne]⟩

/-- C8 witness: on a table with `start`, `end` and `Start` columns, the
unparseable `start`/`end` cells become missing while the `Start` cell is
untouched. -/
theorem c8_date_coercion_lenient_w :
    (coerceDates noTs ⟨["start", "end", "Start"],
        [[("start", Cell.text "bogus"), ("end", Cell.text "bogus"), ("Start", Cell.text "keep")]]⟩).cols
      = ["start", "end", "Start"]
    ∧ coerceTsCell noTs (Cell.text "bogus") = Cell.missing
    ∧ ("Start", Cell.text "keep") ∈ mapColRow "start" (coerceTsCell noTs)
        [("start", Cell.text "bogus"), ("end", Cell.text "bogus"), ("Start", Cell.text "keep")] :=
  ⟨(c8_date_coercion_lenient noTs ⟨["start", "end", "Start"],
      [[("start", Cell.text "bogus"), ("end", Cell.text "bogus"), ("Start", Cell.text "keep")]]⟩
      (by decide) (by decide)).1,
   (c8_date_coercion_lenient noTs ⟨["start", "end", "Start"],
      [[("start", Cell.text "bogus"), ("end", Cell.text "bogus"), ("Start", Cell.text "keep")]]⟩
      (by decide) (by decide)).2.2.1 "bogus" rfl,
   (c8_date_coercion_lenient noTs ⟨["start", "end", "Start"],
      [[("start", Cell.text "bogus"), ("end", Cell.text "bogus"), ("Start", Cell.text "keep")]]⟩
      (by decide) (by decide)).2.2.2.2 "start" (coerceTsCell noTs)
      [("start", Cell.text "bogus"), ("end", Cell.text "bogus"), ("Start", Cell.text "keep")]
      ("Start", Cell.text "keep") (by decide) (by decide)⟩

/-- C9 counterexample: the rewrite is NOT idempotent on every input.
On "x" followed by a tab and a question mark, the first application
leaves a trailing tab (the question mark is removed after the trim),
and only the second application trims it away. -/
theorem c9_idempotence_cex :
    normalize_col (normalize_col "x\t?") ≠ normalize_col "x\t?" := by decide

/-- C9 amended: the rewrite is deterministic for all inputs (it is a
function), and it is idempotent on every raw name whose whitespace
characters are all plain spaces — the failure needs an exotic
whitespace character (tab, newline, ...) next to a removed question
mark, which no real survey header contains. -/
theorem c9_idempotent_on_space_only (s : String)
    (h : ∀ c ∈ s.data, pyIsSpace c = true → c = ' ') :
    normalize_col (normalize_col s) = normalize_col s := by
  have hchars := normalize_col_chars s h
  rw [normalize_col_eq (normalize_col s)]
  rw [pyStrip_eq_self_of_no_ws ((normalize_col s).data) (fun c hc => (hchars c hc).1)]
  have hmap : (normalize_col s).data.map substCharSpec
      = (normalize_col s).data.map (fun c => [c]) :=
    List.map_congr_left (fun c hc => (hchars c hc).2)
  rw [hmap, flatten_map_singleton]

/-- C9 witness: the rewrite is idempotent on the space-only header
"Age Group?". -/
theorem c9_idempotent_on_space_only_w :
    normalize_col (normalize_col "Age Group?") = normalize_col "Age Group?" :=
  c9_idempotent_on_space_only "Age Group?" (by decide)

/-- C10: the submission timestamps are read only under the exact
case-sensitive names `start` and `end`; if the canonical column list
contains neither, every built row carries NULL in both positions, even
when differently-named timestamp-like columns such as `Start` or
`submission_time` are present. -/
theorem c10_start_end_exact_only (pf : String → Option Rat) (cols : List String) (r : RawRow)
    (hkeys : ∀ kv ∈ r, kv.1 ∈ cols) (hs : "start" ∉ cols) (he : "end" ∉ cols) :
    (buildRow pf cols r).submission_start = none
    ∧ (buildRow pf cols r).submission_end = none := by
  constructor
  · show cellTs (rowGet r "start") = none
    have hno : ∀ kv ∈ r, kv.1 ≠ "start" := by
      intro kv hkv hek
      apply hs
      rw [← hek]
      exact hkeys kv hkv
    rw [rowGet_missing_of_keys hno]
    rfl
  · show cellTs (rowGet r "end") = none
    have hno : ∀ kv ∈ r, kv.1 ≠ "end" := by
      intro kv hkv hek
      apply he
      rw [← hek]
      exact hkeys kv hkv
    rw [rowGet_missing_of_keys hno]
    rfl

/-- C10 witness: a row with `Start` and `submission_time` columns but no
exact `start`/`end` loads NULL into both timestamp positions. -/
theorem c10_start_end_exact_only_w :
    (buildRow noFloat ["Start", "submission_time"]
        [("Start", Cell.text "2024-01-01"), ("submission_time", Cell.ts 5)]).submission_start = none
    ∧ (buildRow noFloat ["Start", "submission_time"]
        [("Start", Cell.text "2024-01-01"), ("submission_time", Cell.ts 5)]).submission_end = none :=
  c10_start_end_exact_only noFloat ["Start", "submission_time"]
    [("Start", Cell.text "2024-01-01"), ("submission_time", Cell.ts 5)]
    (by decide) (by decide) (by decide)

/-- C1: evaluation of the code at the failing input, under the real
single-transaction psycopg2/PostgreSQL semantics. On the concrete
three-row batch where the INSERT of row index 1 raises a constraint
violation, the violation aborts the shared transaction: the third
insert also fails (InFailedSqlTransaction), so only 1 row is counted
inserted, 2 errors are counted and printed, the final COMMIT is turned
into ROLLBACK (0 effective commits), the store keeps its initial empty
state — no table of the destination identity survives, so even the
first inserted row is rolled back — and on this fresh store the
verification SELECT fails, so the run does not reach its success
banner. The claim instead promises N-1 = 2 inserted, 1 failed, and a
single successful commit with no rollback. -/
theorem c1_txn_rollback :
    (runPipelineTxn 200 c1raw noTs noFloat true
        (fun j => decide (j = c1pre.length)) ⟨[], []⟩).recordsInserted = 1
    ∧ (runPipelineTxn 200 c1raw noTs noFloat true
        (fun j => decide (j = c1pre.length)) ⟨[], []⟩).errorsCount = 2
    ∧ (runPipelineTxn 200 c1raw noTs noFloat true
        (fun j => decide (j = c1pre.length)) ⟨[], []⟩).printedErrors = 2
    ∧ (runPipelineTxn 200 c1raw noTs noFloat true
        (fun j => decide (j = c1pre.length)) ⟨[], []⟩).commits = 0
    ∧ (runPipelineTxn 200 c1raw noTs noFloat true
        (fun j => decide (j = c1pre.length)) ⟨[], []⟩).success = false
    ∧ lookupTable (runPipelineTxn 200 c1raw noTs noFloat true
        (fun j => decide (j = c1pre.length)) ⟨[], []⟩).db tblKey = none := by
  refine ⟨by decide, by decide, by decide, by decide, by decide, by decide⟩
